import Mathlib

/-!
Verification development for the regolancer rebalancing engine.

The Go source is shallowly embedded: pure functions become Lean functions,
Go `int64` arithmetic is modelled over `Int` with explicit two's-complement
wraparound where overflow matters, fallible operations return `Option` or
`Except`, and the effectful fragments of `tryRebalance` / `main` are
embedded as explicit decision functions over the outcomes of their RPC
calls.  Where a companion source file of the repository is absent, the
definition is reconstructed from the specification and marked
`Modelled from the spec:` in its doc comment.
-/

/-! ## Machine-integer model (Go int64 semantics) -/

/-- Two's-complement wraparound into the signed 64-bit range,
as performed by Go on overflow of `int64` `+` and `*`. -/
def wrap64 (x : Int) : Int := (x + 2 ^ 63) % 2 ^ 64 - 2 ^ 63

/-- The signed 64-bit range. -/
def inInt64 (x : Int) : Prop := -(2 ^ 63) ≤ x ∧ x < 2 ^ 63

instance (x : Int) : Decidable (inInt64 x) := by
  unfold inInt64; infer_instance

/-- Go `int64` multiplication (wraps on overflow). -/
def goMul64 (a b : Int) : Int := wrap64 (a * b)

/-- Go `int64` addition (wraps on overflow). -/
def goAdd64 (a b : Int) : Int := wrap64 (a + b)

/-! ## Data model (from `lnrpc` message types as used by the source) -/

/-- A directional routing policy of a channel edge; `calcFeeMsat`
(src/routes.go:12-14) reads exactly these two fields. -/
structure RoutingPolicy where
  feeBaseMsat : Int
  feeRateMilliMsat : Int
deriving DecidableEq, Repr

/-- The graph-global view of a channel (`lnrpc.ChannelEdge`):
two endpoint public keys and their two directional policies. -/
structure ChannelEdge where
  node1Pub : String
  node2Pub : String
  node1Policy : RoutingPolicy
  node2Policy : RoutingPolicy
deriving DecidableEq, Repr

/-- The fields of `lnrpc.NodeInfo` the embedded code observes. -/
structure NodeInfo where
  nodeAlias : String
deriving DecidableEq, Repr

/-- A local channel (`lnrpc.Channel`) as carried through the
candidate lists of the rebalancer state. -/
structure Channel where
  chanId : Nat
  capacity : Int
  localBalance : Int
  remoteBalance : Int
deriving DecidableEq, Repr

/-! ## calcFeeMsat (src/routes.go:12-14)

Go source:
`return policy.FeeBaseMsat + amtMsat*policy.FeeRateMilliMsat/1e6`
with `int64` operands.  The product and the sum wrap on overflow;
Go integer division truncates toward zero (`Int.tdiv`).  Division of
an `int64` by the constant `1e6` cannot overflow, so no wrap is
inserted around the quotient. -/
def calcFeeMsat (amtMsat : Int) (policy : RoutingPolicy) : Int :=
  goAdd64 policy.feeBaseMsat (Int.tdiv (goMul64 amtMsat policy.feeRateMilliMsat) 1000000)

/-! ## getRoutes last-hop selection (src/routes.go:35-40)

Go source:
```
lastPKstr := c.Node1Pub
policy := c.Node2Policy
if lastPKstr == r.myPK {
    lastPKstr = c.Node2Pub
    policy = c.Node1Policy
}
```
Returns the last-hop pubkey and the policy used for the fee ceiling. -/
def getRoutesLastHop (myPK : String) (c : ChannelEdge) : String × RoutingPolicy :=
  if c.node1Pub = myPK then (c.node2Pub, c.node1Policy) else (c.node1Pub, c.node2Policy)

/-- Concrete edge for exercising `getRoutesLastHop`: our node is
endpoint 1 and the two directional policies differ. -/
def edgeOurs1 : ChannelEdge :=
  { node1Pub := "ourpk", node2Pub := "peerpk"
    node1Policy := { feeBaseMsat := 1000, feeRateMilliMsat := 100 }
    node2Policy := { feeBaseMsat := 2000, feeRateMilliMsat := 700 } }

/-! ## Fee ceiling of the route query

`main.go:177` calls `r.getRoutes(routeCtx, from, to, amt*1000)` which
returns the routes together with the computed fee ceiling; the body of
that newer `getRoutes`/fee-limit computation is not among the presented
source files (src/routes.go holds an older `getRoutes` of a different
signature, computing only `policy_fee × ratio`).  The ceiling
computation is therefore reconstructed from the specification. -/

/-- Minimum of an optional running value and a new candidate. -/
def optMin : Option Int → Int → Int
  | none, x => x
  | some v, x => min v x

/-- Modelled from the spec: the fee ceiling computation of the route
finder (the newer `getRoutes` fee-limit logic absent from src).  Per
§4.3: start from `policy_fee × econ_ratio` when `econ_ratio > 0`, cap
by `amt_msat × econ_ratio_max_ppm / 1e6` when set, cap by
`amt_msat × fee_limit_ppm / 1e6` when set, and when `lost_profit` is
set subtract the source channel's inbound policy fee.  Divisions for
the ppm terms truncate (Go integer division); the `econ_ratio` product
is taken over ℚ and floored.  Returns `none` when no mode applies. -/
def feeCeilingMsat (policyFeeMsat : Int) (econRatioVal : ℚ)
    (econRatioMaxPPM feeLimitPPM : Int) (amtMsat : Int)
    (lostProfit : Bool) (inboundFeeMsat : Int) : Option Int :=
  let e0 : Option Int :=
    if 0 < econRatioVal then some ⌊(policyFeeMsat : ℚ) * econRatioVal⌋ else none
  let e1 : Option Int :=
    if econRatioMaxPPM ≠ 0 then
      some (optMin e0 (Int.tdiv (amtMsat * econRatioMaxPPM) 1000000))
    else e0
  let e2 : Option Int :=
    if feeLimitPPM ≠ 0 then
      some (optMin e1 (Int.tdiv (amtMsat * feeLimitPPM) 1000000))
    else e1
  e2.map (fun v => v - (if lostProfit then inboundFeeMsat else 0))

/-- The applicable fee bounds named by the claim, in the spec's
order: (a) `policy_fee × econ_ratio` when `econ_ratio > 0`,
(b) `amt_msat × econ_ratio_max_ppm / 1e6` when set,
(c) `amt_msat × fee_limit_ppm / 1e6` when set. -/
def feeCandidates (policyFeeMsat : Int) (econRatioVal : ℚ)
    (econRatioMaxPPM feeLimitPPM : Int) (amtMsat : Int) : List Int :=
  (if 0 < econRatioVal then [⌊(policyFeeMsat : ℚ) * econRatioVal⌋] else []) ++
  (if econRatioMaxPPM ≠ 0 then [Int.tdiv (amtMsat * econRatioMaxPPM) 1000000] else []) ++
  (if feeLimitPPM ≠ 0 then [Int.tdiv (amtMsat * feeLimitPPM) 1000000] else [])

/-- Minimum of a list of integers, `none` on the empty list. -/
def minList : List Int → Option Int
  | [] => none
  | x :: xs =>
    some (match minList xs with
          | none => x
          | some m => min x m)

/-! ## Configuration (main.go:23-62) and preflightChecks (main.go:360-442)

Only the fields read or written by `preflightChecks` are carried.
Go `float64` fields are modelled as ℚ: `preflightChecks` only compares
them with zero and assigns the literal `1`, so no floating-point
rounding is observable.  The field `econ_ratio` is named
`EconRatioVal` here. -/
structure configParams where
  Version : Bool := false
  Connect : String := ""
  MacaroonFilename : String := ""
  Network : String := ""
  FromPerc : Int := 0
  ToPerc : Int := 0
  Perc : Int := 0
  Amount : Int := 0
  RelAmountTo : ℚ := 0
  RelAmountFrom : ℚ := 0
  EconRatioVal : ℚ := 0
  EconRatioMaxPPM : Int := 0
  FeeLimitPPM : Int := 0
  MinAmount : Int := 0
  AllowRapidRebalance : Bool := false
  FailTolerance : Int := 0
  AllowUnbalanceFrom : Bool := false
  AllowUnbalanceTo : Bool := false
  NodeCacheLifetime : Int := 0
  ExcludeChannels : List String := []
  ExcludeNodes : List String := []
  Exclude : List String := []
  TimeoutRebalance : Int := 0
  TimeoutAttempt : Int := 0
  TimeoutInfo : Int := 0
  TimeoutRoute : Int := 0
deriving DecidableEq, Repr

/-- main.go:365-382 — the defaults applied before the first error
check: connect address, macaroon filename, network, pfrom/pto, and
`econ_ratio = 1` when both `econ_ratio` and `fee_limit_ppm` are 0.
Each default reads only fields this block does not modify, so the
sequential Go statements collapse to one simultaneous update. -/
def preflightDefaults1 (p : configParams) : configParams :=
  { p with
    Connect := if p.Connect = "" then "127.0.0.1:10009" else p.Connect
    MacaroonFilename := if p.MacaroonFilename = "" then "admin.macaroon" else p.MacaroonFilename
    Network := if p.Network = "" then "mainnet" else p.Network
    FromPerc := if p.FromPerc = 0 then 50 else p.FromPerc
    ToPerc := if p.ToPerc = 0 then 50 else p.ToPerc
    EconRatioVal := if p.EconRatioVal = 0 ∧ p.FeeLimitPPM = 0 then 1 else p.EconRatioVal }

/-- main.go:386-389 — `perc` overrides both pfrom and pto when positive. -/
def preflightPerc (p : configParams) : configParams :=
  if 0 < p.Perc then { p with FromPerc := p.Perc, ToPerc := p.Perc } else p

/-- main.go:401-403 — default fail tolerance. -/
def preflightFailTolerance (p : configParams) : configParams :=
  { p with FailTolerance := if p.FailTolerance = 0 then 1000 else p.FailTolerance }

/-- main.go:409-411 — default node cache lifetime. -/
def preflightNodeCacheLifetime (p : configParams) : configParams :=
  { p with NodeCacheLifetime := if p.NodeCacheLifetime = 0 then 1440 else p.NodeCacheLifetime }

/-- main.go:424-438 — default timeouts. -/
def preflightTimeouts (p : configParams) : configParams :=
  { p with
    TimeoutAttempt := if p.TimeoutAttempt = 0 then 5 else p.TimeoutAttempt
    TimeoutRebalance := if p.TimeoutRebalance = 0 then 360 else p.TimeoutRebalance
    TimeoutInfo := if p.TimeoutInfo = 0 then 30 else p.TimeoutInfo
    TimeoutRoute := if p.TimeoutRoute = 0 then 30 else p.TimeoutRoute }

/-- main.go:413-418 — the deprecated exclusion lists conflict with
`--exclude`; the error fires only when one of the deprecated lists is
nonempty and `Exclude` is nonempty. -/
def pfCheckExclude (p : configParams) : Except String configParams :=
  if (p.ExcludeChannels ≠ [] ∨ p.ExcludeNodes ≠ []) ∧ p.Exclude ≠ [] then
    .error "cannot use --exclude and --exclude-channel/--exclude-node (or config parameters) at the same time"
  else
    .ok (preflightTimeouts p)

/-- main.go:405-408 — relative amounts conflict with rapid rebalance. -/
def pfCheckRelRapid (p : configParams) : Except String configParams :=
  if (0 < p.RelAmountFrom ∨ 0 < p.RelAmountTo) ∧ p.AllowRapidRebalance then
    .error "use either relative amounts or rapid rebalance but not both"
  else
    pfCheckExclude (preflightNodeCacheLifetime p)

/-- main.go:398-400 — some amount mode must be given. -/
def pfCheckNoAmount (p : configParams) : Except String configParams :=
  if p.Amount = 0 ∧ p.RelAmountFrom = 0 ∧ p.RelAmountTo = 0 then
    .error "no amount specified, use either --amount, --rel-amount-from, or --rel-amount-to"
  else
    pfCheckRelRapid (preflightFailTolerance p)

/-- main.go:394-397 — fixed amount conflicts with relative amounts. -/
def pfCheckAmountRel (p : configParams) : Except String configParams :=
  if 0 < p.Amount ∧ (0 < p.RelAmountFrom ∨ 0 < p.RelAmountTo) then
    .error "use either precise amount or relative amounts but not both"
  else
    pfCheckNoAmount p

/-- main.go:390-393 — the minimum amount must not exceed the amount. -/
def pfCheckMinAmount (p : configParams) : Except String configParams :=
  if 0 < p.MinAmount ∧ 0 < p.Amount ∧ p.Amount < p.MinAmount then
    .error "minimum amount should be less than amount"
  else
    pfCheckAmountRel p

/-- main.go:383-385 — econ-ratio-max-ppm conflicts with fee-limit-ppm. -/
def pfCheckEcon (p : configParams) : Except String configParams :=
  if p.EconRatioMaxPPM ≠ 0 ∧ p.FeeLimitPPM ≠ 0 then
    .error "use either econ-ratio-max-ppm or fee-limit-ppm but not both"
  else
    pfCheckMinAmount (preflightPerc p)

/-- main.go:360-442 — `preflightChecks`.  Errors are the `fmt.Errorf`
returns (on which `main` calls `log.Fatal`); the `--version` branch
prints and exits and is modelled as an error as well. -/
def preflightChecks (p : configParams) : Except String configParams :=
  if p.Version then .error "version requested"
  else pfCheckEcon (preflightDefaults1 p)

/-- main.go:452-462 — `main` connects to the node (the first RPC
activity) only when `preflightChecks` returned without error;
otherwise it `log.Fatal`s first. -/
def mainAttemptsRPC (p : configParams) : Bool :=
  (preflightChecks p).isOk

/-! ## Channel-id string conversion (main.go:139-162) -/

/-- Value of a digit list in base 10; `none` when empty or when a
non-digit occurs. -/
def digitsVal (cs : List Char) : Option Nat :=
  if cs = [] then none
  else cs.foldl
    (fun acc c => acc.bind (fun a => if c.isDigit then some (a * 10 + (c.toNat - 48)) else none))
    (some 0)

/-- Go `strconv.ParseInt(s, 10, 64)`: an optional leading sign, one or
more ASCII digits, and a signed 64-bit range check; `none` models a
non-nil error (including `ErrRange`). -/
def parseIntGo (s : String) : Option Int :=
  match s.toList with
  | [] => none
  | c :: rest =>
    let signed : Bool × List Char :=
      if c = '-' then (true, rest)
      else if c = '+' then (false, rest)
      else (false, c :: rest)
    match digitsVal signed.2 with
    | none => none
    | some n =>
      let v : Int := if signed.1 then -(n : Int) else (n : Int)
      if -(2 ^ 63) ≤ v ∧ v ≤ 2 ^ 63 - 1 then some v else none

/-- `strings.Count(strings.ToLower(cid), "x")`: the number of
characters that lower-case to `x`. -/
def countX (s : String) : Nat :=
  ((s.toList.map Char.toLower).filter (fun c => c = 'x')).length

/-- Split a character list at every `x`/`X` separator. -/
def splitAtX : List Char → List (List Char)
  | [] => [[]]
  | c :: rest =>
    let r := splitAtX rest
    if c.toLower = 'x' then [] :: r
    else
      match r with
      | g :: gs => (c :: g) :: gs
      | [] => [[c]]

/-- Modelled from the spec: `parseScid` is not among the presented
source files.  Per §6, the short-channel-id form is `BBBxTTTxOOO`
(block × tx-index × output-index), three decimal components; the
value packs them as `block·2^40 + tx·2^16 + out`.  A malformed
component is a fatal error (`none`). -/
def parseScid (s : String) : Option Int :=
  match splitAtX s.toList with
  | [b, t, o] =>
    match digitsVal b, digitsVal t, digitsVal o with
    | some bv, some tv, some ov => some ((bv : Int) * 2 ^ 40 + (tv : Int) * 2 ^ 16 + (ov : Int))
    | _, _, _ => none
  | _ => none

/-- main.go:141-157 — conversion of one configured channel-id string:
try `strconv.ParseInt(cid, 10, 64)`; on error, when the lower-cased
string contains exactly two `x` characters parse it as a
short-channel-id, otherwise `log.Fatalf` (modelled as `none`). -/
def convertChanString (cid : String) : Option Int :=
  match parseIntGo cid with
  | some chanId => some chanId
  | none =>
    if countX cid = 2 then parseScid cid else none

/-- main.go:139-162 — `convertChanStringToInt` over the whole list;
any fatal element aborts the program (`none`). -/
def convertChanStringToInt (chanIds : List String) : Option (List Int) :=
  chanIds.mapM convertChanString

/-! ## tryRebalance: route-query error handling (main.go:175-186)

Go source, after `routes, fee, err := r.getRoutes(...)`:
```
if err != nil {
    if routeCtx.Err() == context.DeadlineExceeded {
        log.Print(errColor("Timed out looking for a route"))
        return err, false
    }
    r.addFailedRoute(from, to)
    return err, true
}
```
The failure cache is carried as a list of ordered pairs; the second
component of the result is the `repeat` flag returned to `main`. -/

/-- Modelled from the spec: `addFailedRoute` is not among the
presented source files.  Per §4.3 it records the ordered pair
(from_chan, to_chan) in the failure cache with a short expiration
(the expiration time is not observed by the claims and is elided). -/
def addFailedRoute (cache : List (Nat × Nat)) (fromChan toChan : Nat) : List (Nat × Nat) :=
  (fromChan, toChan) :: cache

/-- main.go:178-185 — the branch taken when the route query returned
an error: yields the updated failure cache and the `repeat` flag. -/
def getRoutesErrorStep (cache : List (Nat × Nat)) (fromChan toChan : Nat)
    (routeCtxExpired : Bool) : List (Nat × Nat) × Bool :=
  if routeCtxExpired then (cache, false)
  else (addFailedRoute cache fromChan toChan, true)

/-- Outcome of one turn of the session loop. -/
inductive SessionStep where
  | exitTimeout
  | exitNoRetry
  | continueLoop
deriving DecidableEq, Repr

/-- main.go:584-593 — one turn of the session loop after
`tryRebalance` returned `retry`: exit reporting a timeout when the
session deadline expired, exit when `retry` is false, otherwise loop. -/
def sessionLoopStep (mainCtxExpired doRetry : Bool) : SessionStep :=
  if mainCtxExpired then .exitTimeout
  else if doRetry then .continueLoop
  else .exitNoRetry

/-! ## tryRebalance: the ErrRetry branch (main.go:206-231)

The effectful branch is embedded as a decision function over the
outcomes of its two external calls (`rebuildRoute` succeeding or not,
the follow-up `pay` succeeding or not), emitting the trace of calls it
performs. -/

/-- Which context a `pay` call runs under: `tryRebalance`'s own
argument `ctx` (the session context) or the attempt context. -/
inductive PayCtx where
  | session
  | attempt
deriving DecidableEq, Repr

/-- External calls performed by the ErrRetry branch. -/
inductive TraceAction where
  | rebuildRouteAt (amtSat : Int)
  | pay (ctx : PayCtx) (amtSat minAmount : Int) (probeSteps : Nat)
  | rapidRebalance
  | invalidateInvoice (amtSat : Int)
deriving DecidableEq, Repr

/-- How the branch leaves the per-route loop of `tryRebalance`. -/
inductive BranchResult where
  | success
  | nextRoute
deriving DecidableEq, Repr

/-- main.go:206-231 — the ErrRetry branch: `amt` is set to the probed
amount, the route is rebuilt at it; when the rebuild succeeds, `pay`
is called once under the session context `ctx` with `min_amount 0`
and `probe_steps 0`; on success, rapid rebalance runs when enabled
with a positive configured `min_amount` and the attempt returns
success; on failure the invoice for the probed amount is invalidated
and the loop advances to the next route.  When the rebuild fails the
loop advances with no further `pay`. -/
def errRetryBranch (allowRapid : Bool) (minAmountCfg : Int) (probedAmt : Int)
    (rebuildOk : Bool) (payOk : Bool) : List TraceAction × BranchResult :=
  if rebuildOk then
    if payOk then
      ([.rebuildRouteAt probedAmt, .pay .session probedAmt 0 0] ++
         (if allowRapid ∧ 0 < minAmountCfg then [.rapidRebalance] else []),
       .success)
    else
      ([.rebuildRouteAt probedAmt, .pay .session probedAmt 0 0,
        .invalidateInvoice probedAmt], .nextRoute)
  else
    ([.rebuildRouteAt probedAmt], .nextRoute)

/-- Number of `pay` calls in a trace. -/
def countPays (l : List TraceAction) : Nat :=
  (l.filter (fun a => match a with | .pay _ _ _ _ => true | _ => false)).length

/-! ## tryRapidRebalance: per-iteration state reset (main.go:286-309) -/

/-- The working state of the rebalancer touched by the rapid-rebalance
reset (the corresponding fields of the `regolancer` struct,
main.go:76-98).  Maps are carried as lists. -/
structure RebalancerState where
  channels : List Channel
  fromChannels : List Channel
  toChannels : List Channel
  fromChannelId : List Nat
  toChannelId : List Nat
  failureCache : List (Nat × Nat)
  channelPairs : List ((Nat × Nat) × (Channel × Channel))
deriving DecidableEq, Repr

/-- Models the key-deletion loops of main.go:286-288, 291-293,
303-305, 307-309: deleting every key empties the map. -/
def clearAll {α : Type} (_ : List α) : List α := []

/-- main.go:286-309 — the state reset performed on every
rapid-rebalance iteration before `getChannelCandidates` (main.go:311):
`fromChannelId`/`toChannelId` become the singletons of the pinned
pair, the three channel lists are truncated, `channels` is refilled
from the freshly fetched peer channel lists (target's first, then
source's, matching the append order at main.go:300-301), and the
failure cache and channel-pair working set are cleared. -/
def rapidIterationReset (s : RebalancerState) (fromId toId : Nat)
    (toChanFresh fromChanFresh : List Channel) : RebalancerState :=
  let s1 := { s with fromChannelId := clearAll s.fromChannelId }
  let s2 := { s1 with fromChannelId := [fromId] }
  let s3 := { s2 with toChannelId := clearAll s2.toChannelId }
  let s4 := { s3 with toChannelId := [toId] }
  let s5 := { s4 with channels := [], fromChannels := [], toChannels := [] }
  let s6 := { s5 with channels := (s5.channels ++ toChanFresh) ++ fromChanFresh }
  let s7 := { s6 with failureCache := clearAll s6.failureCache }
  { s7 with channelPairs := clearAll s7.channelPairs }

/-! ## Cached info lookups (src/routes.go:16-26 and 60-69)

The RPC client is passed as a function from key to result; the
returned triple is (call result, cache afterwards, whether an RPC was
issued). -/

/-- src/routes.go:16-26 — `getChanInfo`: return the cached edge when
present; otherwise issue the RPC, and only on success store the
result before returning it. -/
def getChanInfo (lnGetChanInfo : Nat → Except String ChannelEdge)
    (chanCache : List (Nat × ChannelEdge)) (chanId : Nat) :
    Except String ChannelEdge × List (Nat × ChannelEdge) × Bool :=
  match chanCache.lookup chanId with
  | some c => (.ok c, chanCache, false)
  | none =>
    match lnGetChanInfo chanId with
    | .error e => (.error e, chanCache, true)
    | .ok c => (.ok c, (chanId, c) :: chanCache, true)

/-- src/routes.go:60-69 — `getNodeInfo`: return the cached info when
present; otherwise issue the RPC and store the result only when
`err == nil`. -/
def getNodeInfo (lnGetNodeInfo : String → Except String NodeInfo)
    (nodeCache : List (String × NodeInfo)) (pk : String) :
    Except String NodeInfo × List (String × NodeInfo) × Bool :=
  match nodeCache.lookup pk with
  | some n => (.ok n, nodeCache, false)
  | none =>
    match lnGetNodeInfo pk with
    | .error e => (.error e, nodeCache, true)
    | .ok n => (.ok n, (pk, n) :: nodeCache, true)

/-! ## Concrete instances used to evaluate the definitions -/

/-- A configuration that passes every preflight check: a fixed amount
and nothing else set. -/
def okParams : configParams := { Amount := 100000 }

/-- A configuration with `min_amount > amount > 0` that also sets both
`econ_ratio_max_ppm` and `fee_limit_ppm`. -/
def minAmtBothPPM : configParams :=
  { Amount := 3, MinAmount := 5, EconRatioMaxPPM := 1, FeeLimitPPM := 2 }

/-- A configuration with `min_amount > amount > 0` and no other
conflicting options. -/
def minAmtOnly : configParams := { Amount := 3, MinAmount := 5 }

/-- The record `preflightChecks` returns for `okParams`: all the
defaulting stages applied in source order. -/
def okParamsResult : configParams :=
  preflightTimeouts (preflightNodeCacheLifetime (preflightFailTolerance
    (preflightPerc (preflightDefaults1 okParams))))

/-- A concrete channel edge stored by the cache in the examples. -/
def edgeW : ChannelEdge :=
  { node1Pub := "a", node2Pub := "b"
    node1Policy := { feeBaseMsat := 10, feeRateMilliMsat := 1 }
    node2Policy := { feeBaseMsat := 20, feeRateMilliMsat := 2 } }

/-- A channel-info RPC that knows only channel 7. -/
def rpcChanW : Nat → Except String ChannelEdge :=
  fun i => if i = 7 then .ok edgeW else .error "rpc unavailable"

/-- A concrete node info returned by the example RPC. -/
def nodeW : NodeInfo := { nodeAlias := "carol" }

/-- A node-info RPC that knows only pubkey "pk1". -/
def rpcNodeW : String → Except String NodeInfo :=
  fun pk => if pk = "pk1" then .ok nodeW else .error "rpc unavailable"

/-! ## Helper lemmas -/

theorem wrap64_eq_of_inInt64 (x : Int) (h : inInt64 x) : wrap64 x = x := by
  obtain ⟨h1, h2⟩ := h
  unfold wrap64
  rw [Int.emod_eq_of_lt (by linarith) (by linarith)]
  ring

@[simp] theorem preflightPerc_Amount (p : configParams) :
    (preflightPerc p).Amount = p.Amount := by
  unfold preflightPerc; split <;> rfl

@[simp] theorem preflightPerc_MinAmount (p : configParams) :
    (preflightPerc p).MinAmount = p.MinAmount := by
  unfold preflightPerc; split <;> rfl

@[simp] theorem preflightPerc_RelAmountFrom (p : configParams) :
    (preflightPerc p).RelAmountFrom = p.RelAmountFrom := by
  unfold preflightPerc; split <;> rfl

@[simp] theorem preflightPerc_RelAmountTo (p : configParams) :
    (preflightPerc p).RelAmountTo = p.RelAmountTo := by
  unfold preflightPerc; split <;> rfl

@[simp] theorem preflightPerc_AllowRapidRebalance (p : configParams) :
    (preflightPerc p).AllowRapidRebalance = p.AllowRapidRebalance := by
  unfold preflightPerc; split <;> rfl

@[simp] theorem preflightPerc_EconRatioVal (p : configParams) :
    (preflightPerc p).EconRatioVal = p.EconRatioVal := by
  unfold preflightPerc; split <;> rfl

@[simp] theorem preflightDefaults1_Amount (p : configParams) :
    (preflightDefaults1 p).Amount = p.Amount := rfl

@[simp] theorem preflightDefaults1_MinAmount (p : configParams) :
    (preflightDefaults1 p).MinAmount = p.MinAmount := rfl

@[simp] theorem preflightDefaults1_RelAmountFrom (p : configParams) :
    (preflightDefaults1 p).RelAmountFrom = p.RelAmountFrom := rfl

@[simp] theorem preflightDefaults1_RelAmountTo (p : configParams) :
    (preflightDefaults1 p).RelAmountTo = p.RelAmountTo := rfl

@[simp] theorem preflightDefaults1_AllowRapidRebalance (p : configParams) :
    (preflightDefaults1 p).AllowRapidRebalance = p.AllowRapidRebalance := rfl

theorem preflightDefaults1_EconRatioVal (p : configParams) :
    (preflightDefaults1 p).EconRatioVal =
      if p.EconRatioVal = 0 ∧ p.FeeLimitPPM = 0 then 1 else p.EconRatioVal := rfl

@[simp] theorem preflightFailTolerance_RelAmountFrom (p : configParams) :
    (preflightFailTolerance p).RelAmountFrom = p.RelAmountFrom := rfl

@[simp] theorem preflightFailTolerance_RelAmountTo (p : configParams) :
    (preflightFailTolerance p).RelAmountTo = p.RelAmountTo := rfl

@[simp] theorem preflightFailTolerance_AllowRapidRebalance (p : configParams) :
    (preflightFailTolerance p).AllowRapidRebalance = p.AllowRapidRebalance := rfl

theorem preflightChecks_isOk_false (p : configParams)
    (h : (pfCheckEcon (preflightDefaults1 p)).isOk = false) :
    (preflightChecks p).isOk = false := by
  unfold preflightChecks; split
  · rfl
  · exact h

theorem pfCheckEcon_isOk_false (r : configParams)
    (h : (pfCheckMinAmount (preflightPerc r)).isOk = false) :
    (pfCheckEcon r).isOk = false := by
  unfold pfCheckEcon; split
  · rfl
  · exact h

theorem pfCheckMinAmount_isOk_false (r : configParams)
    (h : (pfCheckAmountRel r).isOk = false) :
    (pfCheckMinAmount r).isOk = false := by
  unfold pfCheckMinAmount; split
  · rfl
  · exact h

theorem pfCheckAmountRel_isOk_false (r : configParams)
    (h : (pfCheckNoAmount r).isOk = false) :
    (pfCheckAmountRel r).isOk = false := by
  unfold pfCheckAmountRel; split
  · rfl
  · exact h

theorem pfCheckNoAmount_isOk_false (r : configParams)
    (h : (pfCheckRelRapid (preflightFailTolerance r)).isOk = false) :
    (pfCheckNoAmount r).isOk = false := by
  unfold pfCheckNoAmount; split
  · rfl
  · exact h

theorem pfCheckExclude_ok_econ (r q : configParams)
    (h : pfCheckExclude r = .ok q) : q.EconRatioVal = r.EconRatioVal := by
  unfold pfCheckExclude at h
  split at h
  · simp at h
  · injection h with h'
    subst h'
    rfl

theorem pfCheckRelRapid_ok_econ (r q : configParams)
    (h : pfCheckRelRapid r = .ok q) : q.EconRatioVal = r.EconRatioVal := by
  unfold pfCheckRelRapid at h
  split at h
  · simp at h
  · rw [pfCheckExclude_ok_econ _ _ h]
    rfl

theorem pfCheckNoAmount_ok_econ (r q : configParams)
    (h : pfCheckNoAmount r = .ok q) : q.EconRatioVal = r.EconRatioVal := by
  unfold pfCheckNoAmount at h
  split at h
  · simp at h
  · rw [pfCheckRelRapid_ok_econ _ _ h]
    rfl

theorem pfCheckAmountRel_ok_econ (r q : configParams)
    (h : pfCheckAmountRel r = .ok q) : q.EconRatioVal = r.EconRatioVal := by
  unfold pfCheckAmountRel at h
  split at h
  · simp at h
  · exact pfCheckNoAmount_ok_econ _ _ h

theorem pfCheckMinAmount_ok_econ (r q : configParams)
    (h : pfCheckMinAmount r = .ok q) : q.EconRatioVal = r.EconRatioVal := by
  unfold pfCheckMinAmount at h
  split at h
  · simp at h
  · exact pfCheckAmountRel_ok_econ _ _ h

theorem pfCheckEcon_ok_econ (r q : configParams)
    (h : pfCheckEcon r = .ok q) : q.EconRatioVal = r.EconRatioVal := by
  unfold pfCheckEcon at h
  split at h
  · simp at h
  · rw [pfCheckMinAmount_ok_econ _ _ h]
    exact preflightPerc_EconRatioVal r

theorem preflightChecks_ok_econ (p q : configParams)
    (h : preflightChecks p = .ok q) :
    q.EconRatioVal = (preflightDefaults1 p).EconRatioVal := by
  unfold preflightChecks at h
  split at h
  · simp at h
  · exact pfCheckEcon_ok_econ _ _ h

/-! ## Claim theorems -/

/-- Claim C7 (amended): `calcFeeMsat` returns exactly
`base_msat + amt_msat × rate_ppm / 1_000_000` (truncating division)
whenever the product `amt_msat × rate_ppm` and the final sum lie in
the signed 64-bit range; outside it, Go `int64` arithmetic wraps
modulo 2^64 (see `calcFeeMsat_overflow_counterexample`). -/
theorem calcFeeMsat_exact (amtMsat : Int) (policy : RoutingPolicy)
    (hprod : inInt64 (amtMsat * policy.feeRateMilliMsat))
    (hsum : inInt64 (policy.feeBaseMsat +
      Int.tdiv (amtMsat * policy.feeRateMilliMsat) 1000000)) :
    calcFeeMsat amtMsat policy =
      policy.feeBaseMsat + Int.tdiv (amtMsat * policy.feeRateMilliMsat) 1000000 := by
  unfold calcFeeMsat goAdd64 goMul64
  rw [wrap64_eq_of_inInt64 _ hprod, wrap64_eq_of_inInt64 _ hsum]

/-- Witness for C7: a 100,000-sat amount (100,000,000 msat) against a
policy of base 1000 msat and rate 500 ppm yields a fee of 51,000 msat,
the value of §8 scenario 1. -/
theorem calcFeeMsat_exact_witness :
    inInt64 (100000000 * (500 : Int)) ∧
    calcFeeMsat 100000000 { feeBaseMsat := 1000, feeRateMilliMsat := 500 } = 51000 := by
  refine ⟨by decide, ?_⟩
  rw [calcFeeMsat_exact 100000000 { feeBaseMsat := 1000, feeRateMilliMsat := 500 }
    (by decide) (by decide)]
  decide

/-- Counterexample for C7 as stated: at `amt_msat = 2^62` and
`rate_ppm = 4` the 64-bit product wraps to 0, so the code returns the
base fee alone instead of the exact value
`⌊2^62·4 / 10^6⌋ = 18446744073709`. -/
theorem calcFeeMsat_overflow_counterexample :
    calcFeeMsat (2 ^ 62) { feeBaseMsat := 0, feeRateMilliMsat := 4 } ≠
      0 + Int.tdiv (2 ^ 62 * 4) 1000000 ∧
    calcFeeMsat (2 ^ 62) { feeBaseMsat := 0, feeRateMilliMsat := 4 } = 0 := by
  constructor <;> decide

/-- Claim C2 (amended): for a target edge having our node as exactly
one endpoint, `getRoutes` (src/routes.go:35-40) selects the *peer's*
public key as the last-hop key, but the policy it uses for the fee
ceiling is the one belonging to the endpoint whose public key IS our
own node's public key (`Node1Policy` when `Node1Pub` is ours,
`Node2Policy` when `Node2Pub` is ours) — our own outbound policy on
the edge, not the peer's. -/
theorem getRoutesLastHop_ownPolicy (myPK : String) (c : ChannelEdge)
    (h : (c.node1Pub = myPK ∧ c.node2Pub ≠ myPK) ∨
         (c.node2Pub = myPK ∧ c.node1Pub ≠ myPK)) :
    (getRoutesLastHop myPK c).1 ≠ myPK ∧
    (c.node1Pub = myPK → (getRoutesLastHop myPK c).2 = c.node1Policy) ∧
    (c.node2Pub = myPK → (getRoutesLastHop myPK c).2 = c.node2Policy) := by
  unfold getRoutesLastHop
  rcases h with ⟨h1, h2⟩ | ⟨h1, h2⟩
  · simp [h1, h2]
  · simp [h2, h1]

/-- Witness for C2's amended theorem at the concrete edge `edgeOurs1`
(our node is endpoint 1): the selected policy is `node1Policy`. -/
theorem getRoutesLastHop_ownPolicy_witness :
    (getRoutesLastHop "ourpk" edgeOurs1).2 = edgeOurs1.node1Policy ∧
    (getRoutesLastHop "ourpk" edgeOurs1).1 ≠ "ourpk" :=
  ⟨(getRoutesLastHop_ownPolicy "ourpk" edgeOurs1 (Or.inl (by decide))).2.1 (by decide),
   (getRoutesLastHop_ownPolicy "ourpk" edgeOurs1 (Or.inl (by decide))).1⟩

/-- Counterexample for C2 as stated: on `edgeOurs1`, endpoint 2 is the
one whose public key is not ours, yet the policy the code selects is
not `node2Policy`. -/
theorem getRoutesLastHop_counterexample :
    edgeOurs1.node1Pub = "ourpk" ∧ edgeOurs1.node2Pub ≠ "ourpk" ∧
    (getRoutesLastHop "ourpk" edgeOurs1).2 ≠ edgeOurs1.node2Policy := by
  decide

/-- Claim C3 (amended): when the route query fails and the route
context's deadline has not expired, the (from, to) pair is added to
the failure cache and `tryRebalance` returns `repeat = true`, on which
the session loop continues; when the route context's deadline HAS
expired, `tryRebalance` returns `repeat = false`, and the session loop
*exits* (as `exitNoRetry` when the session deadline is still alive,
as the session-timeout exit otherwise) rather than continuing with
further attempts. -/
theorem routeError_failureCache_sessionExit
    (cache : List (Nat × Nat)) (fromChan toChan : Nat) :
    getRoutesErrorStep cache fromChan toChan false = ((fromChan, toChan) :: cache, true) ∧
    sessionLoopStep false true = .continueLoop ∧
    getRoutesErrorStep cache fromChan toChan true = (cache, false) ∧
    sessionLoopStep false false = .exitNoRetry ∧
    sessionLoopStep true false = .exitTimeout :=
  ⟨rfl, rfl, rfl, rfl, rfl⟩

/-- Counterexample for C3 as stated: a route-context timeout during
the route query makes `tryRebalance` return `repeat = false`, and the
session loop then does not continue (it exits) even though the session
deadline has not expired. -/
theorem routeError_counterexample :
    (getRoutesErrorStep [] 1 2 true).2 = false ∧
    sessionLoopStep false (getRoutesErrorStep [] 1 2 true).2 ≠ SessionStep.continueLoop := by
  decide

/-- Claim C4 (amended): on an `ErrRetry` carrying a probed
`amount'` from `pay`, the
route is rebuilt at `amount'`; when the rebuild succeeds, `pay` is
invoked exactly once more, under the session context with
`min_amount 0` and `probe_steps 0`; on success of that payment the
attempt returns success, otherwise the invoice for `amount'` is
invalidated and the loop advances to the next route.  When the
rebuild fails, no second `pay` occurs and the loop advances. -/
theorem errRetryBranch_spec (allowRapid : Bool) (minAmountCfg probedAmt : Int)
    (payOk : Bool) :
    countPays (errRetryBranch allowRapid minAmountCfg probedAmt true payOk).1 = 1 ∧
    TraceAction.rebuildRouteAt probedAmt ∈
      (errRetryBranch allowRapid minAmountCfg probedAmt true payOk).1 ∧
    TraceAction.pay .session probedAmt 0 0 ∈
      (errRetryBranch allowRapid minAmountCfg probedAmt true payOk).1 ∧
    (errRetryBranch allowRapid minAmountCfg probedAmt true true).2 = .success ∧
    (errRetryBranch allowRapid minAmountCfg probedAmt true false).2 = .nextRoute ∧
    TraceAction.invalidateInvoice probedAmt ∈
      (errRetryBranch allowRapid minAmountCfg probedAmt true false).1 ∧
    countPays (errRetryBranch allowRapid minAmountCfg probedAmt false payOk).1 = 0 ∧
    (errRetryBranch allowRapid minAmountCfg probedAmt false payOk).2 = .nextRoute := by
  cases payOk <;> by_cases h : allowRapid = true ∧ 0 < minAmountCfg <;>
    simp [errRetryBranch, countPays, h]

/-- Counterexample for C4 as stated: when the rebuild of the route at
the probed amount fails, `pay` is not invoked again at all. -/
theorem errRetryBranch_counterexample :
    countPays (errRetryBranch false 0 5 false true).1 = 0 ∧
    (errRetryBranch false 0 5 false true).1 = [TraceAction.rebuildRouteAt 5] := by
  decide

/-- Claim C5: on every rapid-rebalance iteration, before
`getChannelCandidates` is re-run, `channels`, `fromChannels`,
`toChannels`, the failure cache and the channel-pair working set are
emptied, and `channels` is then repopulated only from the freshly
fetched channel lists of the target and source peers — eligibility is
re-derived from fresh state. -/
theorem rapidReset_empties_state (s : RebalancerState) (fromId toId : Nat)
    (toChanFresh fromChanFresh : List Channel) :
    (rapidIterationReset s fromId toId toChanFresh fromChanFresh).fromChannels = [] ∧
    (rapidIterationReset s fromId toId toChanFresh fromChanFresh).toChannels = [] ∧
    (rapidIterationReset s fromId toId toChanFresh fromChanFresh).failureCache = [] ∧
    (rapidIterationReset s fromId toId toChanFresh fromChanFresh).channelPairs = [] ∧
    (rapidIterationReset s fromId toId toChanFresh fromChanFresh).channels =
      toChanFresh ++ fromChanFresh ∧
    (rapidIterationReset s fromId toId toChanFresh fromChanFresh).fromChannelId = [fromId] ∧
    (rapidIterationReset s fromId toId toChanFresh fromChanFresh).toChannelId = [toId] := by
  simp [rapidIterationReset, clearAll]

/-- Claim C1: the fee ceiling passed to the route query equals the
minimum of the applicable bounds — `policy_fee × econ_ratio` when
`econ_ratio > 0`, `amt_msat × econ_ratio_max_ppm / 1e6` when set,
`amt_msat × fee_limit_ppm / 1e6` when set — with the source channel's
inbound policy fee subtracted when `lost_profit` is set: the
sequential computation `feeCeilingMsat` coincides with the min over
`feeCandidates` followed by the lost-profit subtraction. -/
theorem feeCeiling_eq_min_candidates (policyFeeMsat : Int) (econRatioVal : ℚ)
    (econRatioMaxPPM feeLimitPPM : Int) (amtMsat : Int)
    (lostProfit : Bool) (inboundFeeMsat : Int) :
    feeCeilingMsat policyFeeMsat econRatioVal econRatioMaxPPM feeLimitPPM amtMsat
        lostProfit inboundFeeMsat =
      (minList (feeCandidates policyFeeMsat econRatioVal econRatioMaxPPM feeLimitPPM
          amtMsat)).map
        (fun v => v - (if lostProfit then inboundFeeMsat else 0)) := by
  unfold feeCeilingMsat feeCandidates
  by_cases h1 : 0 < econRatioVal <;> by_cases h2 : econRatioMaxPPM ≠ 0 <;>
    by_cases h3 : feeLimitPPM ≠ 0 <;>
      simp [h1, h2, h3, minList, optMin, min_assoc]

/-- Claim C6: configuration preflight fails when
`econ_ratio_max_ppm` and `fee_limit_ppm` are both set, when a fixed
amount is combined with a relative amount, when no amount mode at all
is given, or when a relative amount is combined with
`allow_rapid_rebalance`; and when both `econ_ratio` and
`fee_limit_ppm` are unset the returned configuration has
`econ_ratio = 1`. -/
theorem preflight_c6 (p : configParams) :
    (p.EconRatioMaxPPM ≠ 0 ∧ p.FeeLimitPPM ≠ 0 → (preflightChecks p).isOk = false) ∧
    (0 < p.Amount ∧ (0 < p.RelAmountFrom ∨ 0 < p.RelAmountTo) →
      (preflightChecks p).isOk = false) ∧
    (p.Amount = 0 ∧ p.RelAmountFrom = 0 ∧ p.RelAmountTo = 0 →
      (preflightChecks p).isOk = false) ∧
    ((0 < p.RelAmountFrom ∨ 0 < p.RelAmountTo) ∧ p.AllowRapidRebalance = true →
      (preflightChecks p).isOk = false) ∧
    (p.EconRatioVal = 0 ∧ p.FeeLimitPPM = 0 →
      ∀ q, preflightChecks p = .ok q → q.EconRatioVal = 1) := by
  refine ⟨?_, ?_, ?_, ?_, ?_⟩
  · rintro ⟨h1, h2⟩
    apply preflightChecks_isOk_false
    unfold pfCheckEcon
    split
    · rfl
    · rename_i hcond
      exact absurd ⟨h1, h2⟩ hcond
  · rintro ⟨h1, h2⟩
    apply preflightChecks_isOk_false
    apply pfCheckEcon_isOk_false
    apply pfCheckMinAmount_isOk_false
    unfold pfCheckAmountRel
    split
    · rfl
    · rename_i hcond
      refine absurd ?_ hcond
      simp only [preflightPerc_Amount, preflightPerc_RelAmountFrom,
        preflightPerc_RelAmountTo, preflightDefaults1_Amount,
        preflightDefaults1_RelAmountFrom, preflightDefaults1_RelAmountTo]
      exact ⟨h1, h2⟩
  · rintro ⟨h1, h2, h3⟩
    apply preflightChecks_isOk_false
    apply pfCheckEcon_isOk_false
    apply pfCheckMinAmount_isOk_false
    apply pfCheckAmountRel_isOk_false
    unfold pfCheckNoAmount
    split
    · rfl
    · rename_i hcond
      refine absurd ?_ hcond
      simp only [preflightPerc_Amount, preflightPerc_RelAmountFrom,
        preflightPerc_RelAmountTo, preflightDefaults1_Amount,
        preflightDefaults1_RelAmountFrom, preflightDefaults1_RelAmountTo]
      exact ⟨h1, h2, h3⟩
  · rintro ⟨h1, h2⟩
    apply preflightChecks_isOk_false
    apply pfCheckEcon_isOk_false
    apply pfCheckMinAmount_isOk_false
    apply pfCheckAmountRel_isOk_false
    apply pfCheckNoAmount_isOk_false
    unfold pfCheckRelRapid
    split
    · rfl
    · rename_i hcond
      refine absurd ?_ hcond
      simp only [preflightFailTolerance_RelAmountFrom,
        preflightFailTolerance_RelAmountTo,
        preflightFailTolerance_AllowRapidRebalance, preflightPerc_RelAmountFrom,
        preflightPerc_RelAmountTo, preflightPerc_AllowRapidRebalance,
        preflightDefaults1_RelAmountFrom, preflightDefaults1_RelAmountTo,
        preflightDefaults1_AllowRapidRebalance]
      exact ⟨h1, h2⟩
  · rintro ⟨h1, h2⟩ q hq
    rw [preflightChecks_ok_econ p q hq, preflightDefaults1_EconRatioVal]
    simp [h1, h2]

/-- Witness for C6: each error condition fires on a concrete
configuration, and on the plain `okParams` the returned configuration
has `econ_ratio = 1`. -/
theorem preflight_c6_witness :
    (preflightChecks { okParams with EconRatioMaxPPM := 10, FeeLimitPPM := 20 }).isOk = false ∧
    (preflightChecks { okParams with RelAmountTo := 1 }).isOk = false ∧
    (preflightChecks ({} : configParams)).isOk = false ∧
    (preflightChecks { RelAmountFrom := 1, AllowRapidRebalance := true }).isOk = false ∧
    okParamsResult.EconRatioVal = 1 :=
  ⟨(preflight_c6 _).1 ⟨by decide, by decide⟩,
   (preflight_c6 _).2.1 ⟨by decide, Or.inr (by decide)⟩,
   (preflight_c6 _).2.2.1 ⟨rfl, rfl, rfl⟩,
   (preflight_c6 _).2.2.2.1 ⟨Or.inl (by decide), rfl⟩,
   (preflight_c6 okParams).2.2.2.2 ⟨rfl, rfl⟩ okParamsResult rfl⟩

/-- Claim C9 (amended): when `min_amount` and `amount` are both
positive with `min_amount > amount`, and no earlier-checked
configuration error is present (`--version` not requested,
`econ_ratio_max_ppm`/`fee_limit_ppm` not both set), preflight returns
exactly the error "minimum amount should be less than amount" and
`main` never reaches the RPC connection (main.go:452-458 calls
`log.Fatal` before `lndclient.NewBasicConn`). -/
theorem preflight_minAmountError (p : configParams)
    (hv : p.Version = false)
    (he : ¬(p.EconRatioMaxPPM ≠ 0 ∧ p.FeeLimitPPM ≠ 0))
    (h1 : 0 < p.MinAmount) (h2 : 0 < p.Amount) (h3 : p.Amount < p.MinAmount) :
    preflightChecks p = .error "minimum amount should be less than amount" ∧
    mainAttemptsRPC p = false := by
  have hp : preflightChecks p = .error "minimum amount should be less than amount" := by
    unfold preflightChecks
    rw [if_neg (show ¬(p.Version = true) by simp [hv])]
    unfold pfCheckEcon
    rw [if_neg (show ¬((preflightDefaults1 p).EconRatioMaxPPM ≠ 0 ∧
      (preflightDefaults1 p).FeeLimitPPM ≠ 0) from he)]
    unfold pfCheckMinAmount
    rw [if_pos (show 0 < (preflightPerc (preflightDefaults1 p)).MinAmount ∧
      0 < (preflightPerc (preflightDefaults1 p)).Amount ∧
      (preflightPerc (preflightDefaults1 p)).Amount <
        (preflightPerc (preflightDefaults1 p)).MinAmount from by
        simp only [preflightPerc_MinAmount, preflightPerc_Amount,
          preflightDefaults1_MinAmount, preflightDefaults1_Amount]
        exact ⟨h1, h2, h3⟩)]
  refine ⟨hp, ?_⟩
  simp [mainAttemptsRPC, hp, Except.isOk, Except.toBool]

/-- Witness for C9's amended theorem at the concrete configuration
`minAmtOnly` (amount 3, min_amount 5). -/
theorem preflight_minAmountError_witness :
    preflightChecks minAmtOnly = .error "minimum amount should be less than amount" ∧
    mainAttemptsRPC minAmtOnly = false :=
  preflight_minAmountError minAmtOnly rfl (by decide) (by decide) (by decide) (by decide)

/-- Counterexample for C9 as stated: on `minAmtBothPPM` the minimum
amount exceeds the positive amount, yet preflight returns the
econ-ratio/fee-limit conflict error (checked first, main.go:383)
instead of "minimum amount should be less than amount". -/
theorem preflight_minAmount_counterexample :
    0 < minAmtBothPPM.MinAmount ∧ 0 < minAmtBothPPM.Amount ∧
    minAmtBothPPM.Amount < minAmtBothPPM.MinAmount ∧
    preflightChecks minAmtBothPPM =
      .error "use either econ-ratio-max-ppm or fee-limit-ppm but not both" ∧
    "use either econ-ratio-max-ppm or fee-limit-ppm but not both" ≠
      "minimum amount should be less than amount" := by
  refine ⟨by decide, by decide, by decide, by rfl, by decide⟩

/-- Claim C8: a configured channel-id string is accepted either as a
decimal 64-bit integer (the `strconv.ParseInt` path), or — exactly
when that parse fails and the string contains two `x` characters,
case-insensitively — as a short-channel-id; any string that is
neither is a fatal startup error (`none`). -/
theorem convertChanString_spec (cid : String) :
    (∀ v, parseIntGo cid = some v → convertChanString cid = some v) ∧
    (parseIntGo cid = none → countX cid = 2 → convertChanString cid = parseScid cid) ∧
    (parseIntGo cid = none → countX cid ≠ 2 → convertChanString cid = none) := by
  refine ⟨?_, ?_, ?_⟩
  · intro v hv
    simp [convertChanString, hv]
  · intro hn h2
    simp [convertChanString, hn, h2]
  · intro hn h2
    simp [convertChanString, hn, h2]

/-- Witness for C8: a decimal id, a short-channel-id with two `x`
separators, and a malformed string. -/
theorem convertChanString_witness :
    convertChanString "123" = some 123 ∧
    convertChanString "683000x2000x1" = parseScid "683000x2000x1" ∧
    convertChanString "no-channel" = none :=
  ⟨(convertChanString_spec "123").1 123 (by rfl),
   (convertChanString_spec "683000x2000x1").2.1 (by rfl) (by rfl),
   (convertChanString_spec "no-channel").2.2 (by rfl) (by decide)⟩

/-- Claim C10: `getChanInfo` and `getNodeInfo` leave their caches
unchanged when the RPC fails, and after one successful call a
repeated call with the same key returns the cached value without
issuing another RPC. -/
theorem cacheBehavior (rpcC : Nat → Except String ChannelEdge)
    (ccache : List (Nat × ChannelEdge)) (cid : Nat)
    (rpcN : String → Except String NodeInfo)
    (ncache : List (String × NodeInfo)) (pk : String) :
    (∀ e, rpcC cid = .error e → (getChanInfo rpcC ccache cid).2.1 = ccache) ∧
    (∀ c, ccache.lookup cid = none → rpcC cid = .ok c →
      getChanInfo rpcC ((getChanInfo rpcC ccache cid).2.1) cid =
        (.ok c, (cid, c) :: ccache, false)) ∧
    (∀ e, rpcN pk = .error e → (getNodeInfo rpcN ncache pk).2.1 = ncache) ∧
    (∀ n, ncache.lookup pk = none → rpcN pk = .ok n →
      getNodeInfo rpcN ((getNodeInfo rpcN ncache pk).2.1) pk =
        (.ok n, (pk, n) :: ncache, false)) := by
  refine ⟨?_, ?_, ?_, ?_⟩
  · intro e he
    unfold getChanInfo
    cases hl : ccache.lookup cid <;> simp [hl, he]
  · intro c hl hc
    unfold getChanInfo
    simp [hl, hc, List.lookup]
  · intro e he
    unfold getNodeInfo
    cases hl : ncache.lookup pk <;> simp [hl, he]
  · intro n hl hn
    unfold getNodeInfo
    simp [hl, hn, List.lookup]

/-- Witness for C10: a failed RPC leaves the empty caches empty; after
a successful fetch of channel 7 (resp. pubkey "pk1") the second call
returns the stored value with no RPC issued. -/
theorem cacheBehavior_witness :
    (getChanInfo rpcChanW [] 9).2.1 = ([] : List (Nat × ChannelEdge)) ∧
    getChanInfo rpcChanW ((getChanInfo rpcChanW [] 7).2.1) 7 =
      (.ok edgeW, [(7, edgeW)], false) ∧
    (getNodeInfo rpcNodeW [] "nope").2.1 = ([] : List (String × NodeInfo)) ∧
    getNodeInfo rpcNodeW ((getNodeInfo rpcNodeW [] "pk1").2.1) "pk1" =
      (.ok nodeW, [("pk1", nodeW)], false) :=
  ⟨(cacheBehavior rpcChanW [] 9 rpcNodeW [] "nope").1 "rpc unavailable" (by rfl),
   (cacheBehavior rpcChanW [] 7 rpcNodeW [] "pk1").2.1 edgeW (by rfl) (by rfl),
   (cacheBehavior rpcChanW [] 9 rpcNodeW [] "nope").2.2.1 "rpc unavailable" (by rfl),
   (cacheBehavior rpcChanW [] 7 rpcNodeW [] "pk1").2.2.2 nodeW (by rfl) (by rfl)⟩
